import Mathlib

/-!
Shallow embedding of `src/William-Morris-Local-LLM.py` (the William Morris
local-LLM device controller) and proofs about the properties its
specification states.

Conventions of the embedding:
* Python threads communicate through `queue.Queue`; a queue is modelled as a
  `List Event` in FIFO order (`put` appends at the tail, `get` takes the head,
  `queue.clear()` empties the list).
* Python ints are `Int` (Python `%` on a positive modulus agrees with
  `Int.emod`), string buffers are `List Char` or `String`.
* Each Python method that mutates `self` becomes a function from the relevant
  state structure (plus the shared event queue where the method touches it) to
  the updated state (and queue).
* Calls into the e-paper display collaborator are recorded in a `calls` log
  (a `List RenderCall`) instead of drawing pixels; the display worker's
  private `update_queue` is modelled as a list as well.
-/

namespace WilliamMorris

/-- `EventType` enum, lines 19-26 of the source. -/
inductive EventType where
  | LLM_RESPONSE
  | DISPLAY_UPDATE
  | SHUTDOWN
  | KEYBOARDINPUT
  | BAR_UPDATE
  | BAR_FULL
  | INPUTSENT
deriving DecidableEq, Repr

/-- The payloads actually attached to events in the source: nothing
(`data=None`), the dial's `loading_progress` (an int), a plain string
(the error path), or a chat-response object (modelled by its
`message.content` string). -/
inductive EventData where
  | noData
  | intData (i : Int)
  | strData (s : String)
  | respData (content : String)
deriving DecidableEq, Repr

/-- `Event` class, lines 29-33 (the wall-clock `timestamp` field is not
modelled: nothing in the program reads it). -/
structure Event where
  type : EventType
  data : EventData
deriving DecidableEq, Repr

/-- `queue.Queue.put`: append at the tail (FIFO). -/
def pushEvent (q : List Event) (e : Event) : List Event := q ++ [e]

/-- The head of the queue as seen by the next `queue.Queue.get`. -/
def popEvent (q : List Event) : Option Event := q.head?

/-- `self.event_queue.queue.clear()` under `self.event_queue.mutex`
(lines 504-505): atomically discard every queued event. -/
def drainAll (_q : List Event) : List Event := []

/-! ## RotaryEncoderClass (lines 344-418) -/

/-- Counts per full revolution, line 353. -/
def CPR : Int := 2048

/-- Mutable state of `RotaryEncoderClass`: `is_running` (line 348),
`rotation_count` (354), `loading_progress` (355), `rotations_met` (357),
and the gpiozero encoder's `steps` counter that `rotation_detected` reads
and resets. -/
structure RotaryState where
  is_running : Bool
  rotation_count : Int
  loading_progress : Int
  rotations_met : Bool
  steps : Int
deriving DecidableEq, Repr

/-- State of `RotaryEncoderClass` right after `__init__` (lines 346-360),
except that `is_running` is a parameter: `__init__` leaves it `false` and the
coordinator's `INPUTSENT` handler later sets it `true`. -/
def rotaryInit (running : Bool) : RotaryState :=
  { is_running := running, rotation_count := 0, loading_progress := -1,
    rotations_met := false, steps := 0 }

/-- `RotaryEncoderClass.rotation_detected`, lines 372-395, acting on the
rotary state and the shared event queue.  `stop()` (lines 416-418) is inlined
as `is_running := false`. -/
def rotation_detected (s : RotaryState) (q : List Event) :
    RotaryState × List Event :=
  if s.is_running then
    if CPR ≤ |s.steps| then
      let rc : Int := if 0 < s.steps then s.rotation_count + 1
                      else s.rotation_count - 1
      let s1 : RotaryState := { s with rotation_count := rc, steps := 0 }
      if rc % 3 = 0 then
        let lp : Int := s1.loading_progress + 1
        let s2 : RotaryState := { s1 with rotations_met := true,
                                          loading_progress := lp }
        let q1 : List Event := pushEvent q ⟨.BAR_UPDATE, .intData lp⟩
        if 6 ≤ lp then
          ({ s2 with rotation_count := 0, loading_progress := -1,
                     is_running := false },
           pushEvent q1 ⟨.BAR_FULL, .noData⟩)
        else
          (s2, q1)
      else
        ({ s1 with rotations_met := false }, q)
    else (s, q)
  else (s, q)

/-- One completed full rotation delivered to the callback: the encoder has
accumulated `CPR` steps, positive for clockwise, negative for
counterclockwise, and `rotation_detected` fires. -/
def fullRotation (cw : Bool) (s : RotaryState) (q : List Event) :
    RotaryState × List Event :=
  rotation_detected { s with steps := if cw then CPR else -CPR } q

/-- A sequence of `n` completed full rotations, all in the same direction. -/
def rotSeq (cw : Bool) : Nat → RotaryState × List Event → RotaryState × List Event
  | 0, sq => sq
  | n + 1, sq => rotSeq cw n (fullRotation cw sq.1 sq.2)

/-! ## LocalLLM (lines 420-540): key capture and the worker cycle -/

/-- The keys distinguished by `on_press` (lines 487-517): a printable
character (the `key.char` branch), or one of the three special keys handled
in the `AttributeError` branch. -/
inductive Key where
  | char (c : Char)
  | space
  | backspace
  | enter
deriving DecidableEq, Repr

/-- A chat message, mirroring the `{'role': ..., 'content': ...}` dicts
appended to `self.messages`. -/
structure ChatMessage where
  role : String
  content : String
deriving DecidableEq, Repr

/-- What `get_llm_response` (lines 519-535) hands back to `run`: on success
the `ollama.chat` response object (modelled by its `message.content` string),
on a caught backend exception the plain string `"Error: " ++ e`. -/
inductive LlmResult where
  | respObj (content : String)
  | errStr (s : String)
deriving DecidableEq, Repr

/-- Mutable state of `LocalLLM` relevant to the claims: the key-capture
fields (lines 426-430), the conversation `messages` (line 442), and the
worker's run flag. -/
structure LlmState where
  key_count : Nat
  input_counter : Nat
  input_ready : Bool
  llm_output_ready : Bool
  user_input : List Char
  messages : List ChatMessage
  is_running : Bool
deriving DecidableEq, Repr

/-- `LocalLLM` state right after `__init__` (lines 421-443): note
`key_count` starts at 2, not 0. -/
def llmInit (sys : ChatMessage) : LlmState :=
  { key_count := 2, input_counter := 0, input_ready := false,
    llm_output_ready := false, user_input := [],
    messages := [sys], is_running := true }

/-- `LocalLLM.on_press`, lines 487-517, acting on the LLM state and the
shared event queue.  A character key appends and bumps `key_count`; space and
backspace likewise; enter drains the shared queue, resets `key_count`,
pushes `INPUTSENT` and raises `input_ready`.  After the per-key branch the
common `key_count >= 3` check pushes `KEYBOARDINPUT` and resets the
counter. -/
def on_press (s : LlmState) (q : List Event) (k : Key) : LlmState × List Event :=
  let (s1, q1) :=
    match k with
    | .char c =>
        ({ s with user_input := s.user_input ++ [c],
                  key_count := s.key_count + 1 }, q)
    | .space =>
        ({ s with user_input := s.user_input ++ [' '],
                  key_count := s.key_count + 1 }, q)
    | .backspace =>
        ({ s with user_input := s.user_input.dropLast,
                  key_count := s.key_count + 1 }, q)
    | .enter =>
        ({ s with key_count := 0, input_ready := true },
         pushEvent (drainAll q) ⟨.INPUTSENT, .noData⟩)
  if 3 ≤ s1.key_count then
    ({ s1 with input_counter := s1.input_counter + 1, key_count := 0 },
     pushEvent q1 ⟨.KEYBOARDINPUT, .noData⟩)
  else
    (s1, q1)

/-- A sequence of key events delivered to `on_press` in order. -/
def processKeys (s : LlmState) (q : List Event) : List Key → LlmState × List Event
  | [] => (s, q)
  | k :: ks => processKeys (on_press s q k).1 (on_press s q k).2 ks

/-- `LocalLLM.get_llm_response`, lines 519-535: the blocking `chat` call
either returns a response object (and sets `llm_output_ready`) or raises,
in which case the handler returns the string `"Error: " ++ e`.  The
collaborator's behaviour is the `Except` argument. -/
def get_llm_response (collab : Except String String) (s : LlmState) :
    LlmState × LlmResult :=
  match collab with
  | .ok content => ({ s with llm_output_ready := true }, .respObj content)
  | .error e => (s, .errStr ("Error: " ++ e))

/-- The Python message of the `AttributeError` raised by
`self.response.message.content` when `self.response` is a plain string
(`run`, line 467); the original text quotes the words str and message. -/
def attributeErrorMsg : String := "str object has no attribute message"

/-- One post-input iteration of `LocalLLM.run` (lines 461-485), starting
from the point where `input_ready` became true: append the user message,
call `get_llm_response`, then access `response.message.content` — which
succeeds on a response object, but raises `AttributeError` on the error
string, so control jumps to the `except` block (lines 483-485), which only
logs and pushes an error-payload `LLM_RESPONSE` event.  On the successful
path the assistant message is appended, `llm_output_ready` set, the
response event pushed and the input fields reset. -/
def runCycle (collab : Except String String) (s : LlmState) (q : List Event) :
    LlmState × List Event :=
  let s1 : LlmState :=
    { s with messages := s.messages ++ [⟨"user", String.mk s.user_input⟩] }
  let (s2, r) := get_llm_response collab s1
  match r with
  | .respObj content =>
      ({ s2 with messages := s2.messages ++ [⟨"assistant", content⟩],
                 llm_output_ready := true,
                 user_input := [], input_ready := false },
       pushEvent q ⟨.LLM_RESPONSE, .respData content⟩)
  | .errStr _ =>
      (s2,
       pushEvent q ⟨.LLM_RESPONSE,
         .strData ("Error: " ++ attributeErrorMsg)⟩)

/-! ## DeviceController (lines 35-150) and EpaperDisplay's queue (lines 153-341) -/

/-- A call made by the coordinator into the `EpaperDisplay` collaborator,
recorded instead of drawing: `prtext` (line 109), `loadingbar` (113),
`display_user_input` (114), `update_loading_bar` (119),
`display_response` (135).  Each constructor carries the argument the
coordinator passes. -/
inductive RenderCall where
  | prtext (text : List Char)
  | loadingbar
  | display_user_input (text : List Char)
  | update_loading_bar (progress : Int)
  | display_response (content : String)
deriving DecidableEq, Repr

/-- `self.response.message.content` on a `LocalLLM.response` value: defined
on a response object, raises `AttributeError` (modelled as `none`) when the
stored value is the plain error string. -/
def messageContent : LlmResult → Option String
  | .respObj content => some content
  | .errStr _ => none

/-- State of `DeviceController` together with its view of the components it
dereferences in `handle_event`: the rotary state, the `LocalLLM` state, the
`LocalLLM.response` attribute, the display worker's run flag and private
`update_queue` (line 159, fed only by `queue_update`, line 323), the
coordinator's own flags (lines 52-54), the log of calls made into the
display collaborator, and whether an uncaught `AttributeError` escaped
`check_display_response`. -/
structure ControllerState where
  rotary : RotaryState
  llm : LlmState
  response : LlmResult
  loading_bar_full : Bool
  is_running : Bool
  display_running : Bool
  update_queue : List String
  calls : List RenderCall
  crashed : Bool
deriving DecidableEq, Repr

/-- `DeviceController.check_display_response`, lines 131-138: if both the
worker's `llm_output_ready` flag and the coordinator's `loading_bar_full`
flag are set, call `display_response(self.llm.response.message.content)` and
clear both flags; the `.message.content` access raises if the response is
the plain error string. -/
def check_display_response (s : ControllerState) : ControllerState :=
  if s.llm.llm_output_ready && s.loading_bar_full then
    match messageContent s.response with
    | some c =>
        { s with calls := s.calls ++ [.display_response c],
                 llm := { s.llm with llm_output_ready := false },
                 loading_bar_full := false }
    | none => { s with crashed := true }
  else s

/-- `DeviceController.handle_event`, lines 99-129, with `shutdown`
(lines 140-148) inlined in the `SHUTDOWN` branch.  Display operations are
invoked directly and synchronously (the `update_queue` is not involved);
the `BAR_UPDATE` branch passes the rotary's current `loading_progress`,
not the event's payload. -/
def handle_event (s : ControllerState) (e : Event) : ControllerState :=
  match e.type with
  | .SHUTDOWN =>
      { s with is_running := false, display_running := false,
               rotary := { s.rotary with is_running := false },
               llm := { s.llm with is_running := false } }
  | .KEYBOARDINPUT =>
      { s with calls := s.calls ++ [.prtext s.llm.user_input] }
  | .INPUTSENT =>
      { s with calls := s.calls ++
                 [.loadingbar, .display_user_input s.llm.user_input],
               rotary := { s.rotary with is_running := true } }
  | .BAR_UPDATE =>
      { s with calls := s.calls ++
                 [.update_loading_bar s.rotary.loading_progress] }
  | .BAR_FULL =>
      check_display_response { s with loading_bar_full := true }
  | .LLM_RESPONSE =>
      check_display_response s
  | .DISPLAY_UPDATE => s

/-- The dispatch loop `process_events` (lines 83-97) handling a finite batch
of queued events in FIFO order, one at a time. -/
def processEvents (s : ControllerState) : List Event → ControllerState
  | [] => s
  | e :: es => processEvents (handle_event s e) es

/-- Number of `display_response` calls recorded so far. -/
def showCount (s : ControllerState) : Nat :=
  s.calls.countP fun c =>
    match c with
    | .display_response _ => true
    | _ => false

/-! ## The readiness-gate operations (lines 121-138, 461-473, 519-535)

During one successful worker cycle, the atomic steps that touch the gate
state are, in the worker's program order:
1. `self.llm_output_ready = True` inside `get_llm_response`, line 528 —
   executed *before* `get_llm_response` returns, hence before
   `self.response` is (re)bound;
2. the binding `self.response = self.get_llm_response()`, line 465;
3. the second `self.llm_output_ready = True`, line 472 (two prints and a
   chat-log file write separate steps 2 and 3);
4. the `LLM_RESPONSE` push, line 473, whose dispatch by the coordinator
   follows it (FIFO queue, single consumer).
The dial's `BAR_FULL` is pushed by a third thread and may be dispatched by
the coordinator at any point relative to the worker's steps 1-3; only the
two dispatches are mutually ordered (both run in the dispatch loop). -/

inductive GateOp where
  | setReadyEarly
  | bindResponse (content : String)
  | setReadyLate
  | dispatchBarFull
  | dispatchLlmResponse (content : String)
deriving DecidableEq, Repr

/-- Effect of one gate-relevant atomic step on the shared state. -/
def gateStep (s : ControllerState) : GateOp → ControllerState
  | .setReadyEarly => { s with llm := { s.llm with llm_output_ready := true } }
  | .bindResponse content => { s with response := .respObj content }
  | .setReadyLate => { s with llm := { s.llm with llm_output_ready := true } }
  | .dispatchBarFull => handle_event s ⟨.BAR_FULL, .noData⟩
  | .dispatchLlmResponse content =>
      handle_event s ⟨.LLM_RESPONSE, .respData content⟩

/-- Run a sequence of gate-relevant operations. -/
def runGate (s : ControllerState) : List GateOp → ControllerState
  | [] => s
  | op :: ops => runGate (gateStep s op) ops

/-- The schedules one successful charge/response cycle can produce at the
gate: the worker's three steps occur in program order, its event's dispatch
after them, and the `BAR_FULL` dispatch in any of the five positions
relative to them. -/
def cycleSchedules (content : String) : List (List GateOp) :=
  [ [.dispatchBarFull, .setReadyEarly, .bindResponse content,
     .setReadyLate, .dispatchLlmResponse content],
    [.setReadyEarly, .dispatchBarFull, .bindResponse content,
     .setReadyLate, .dispatchLlmResponse content],
    [.setReadyEarly, .bindResponse content, .dispatchBarFull,
     .setReadyLate, .dispatchLlmResponse content],
    [.setReadyEarly, .bindResponse content, .setReadyLate,
     .dispatchBarFull, .dispatchLlmResponse content],
    [.setReadyEarly, .bindResponse content, .setReadyLate,
     .dispatchLlmResponse content, .dispatchBarFull] ]

/-- The raced schedule: `BAR_FULL` is dispatched inside the window between
the premature flag-set at line 528 and the response binding at
line 465. -/
def racedSchedule (content : String) : List GateOp :=
  [.setReadyEarly, .dispatchBarFull, .bindResponse content,
   .setReadyLate, .dispatchLlmResponse content]

/-! ## Concrete states used by witnesses and counterexamples -/

/-- The fixed system-prompt message (lines 432-441; content abridged, its
text plays no role in any property). -/
def sysMsg : ChatMessage := ⟨"system", "You are William Morris."⟩

/-- A controller state as after start-up: dial not yet armed, worker idle,
no flags set, no calls made, private display queue empty. -/
def sampleController : ControllerState :=
  { rotary := rotaryInit false, llm := llmInit sysMsg,
    response := .errStr "Error: none yet", loading_bar_full := false,
    is_running := true, display_running := true, update_queue := [],
    calls := [], crashed := false }

/-- A model collaborator that raises (the `except` branch of
`get_llm_response`). -/
def failingCollab : Except String String := Except.error "connection refused"

/-- The worker state at the top of a cycle after the user finalized the
input `hi`. -/
def preErrorState : LlmState :=
  { llmInit sysMsg with user_input := ['h', 'i'],
                        input_ready := true, key_count := 0 }

/-- A controller state at the start of a charge/response cycle after at
least one earlier successful cycle: both readiness flags are false and
`LocalLLM.response` still holds the previous cycle's reply.  (On the very
first cycle `self.response` is not bound at all, which is strictly worse:
the gate's `.message.content` access raises there.) -/
def cleanGateStart : ControllerState :=
  { sampleController with response := .respObj "old reply" }

/-- A `BAR_UPDATE` event as the dial pushes it when `loading_progress`
was 0 at push time (line 387). -/
def stalePayloadEvent : Event := ⟨.BAR_UPDATE, .intData 0⟩

/-- A controller state in which the dial has meanwhile advanced to
`loading_progress = 1` by dispatch time. -/
def advancedDial : ControllerState :=
  { sampleController with
      rotary := { rotaryInit true with loading_progress := 1 } }

/-! ## Theorems -/

/-- C2: the enter-key finalize path atomically drains the shared event queue
and then pushes a single `INPUTSENT` event, so whatever was queued before,
the queue afterwards contains exactly that event, the next pop returns it,
and in general a drain followed by a push leaves exactly the pushed event. -/
theorem enter_clears_queue_single_inputsent (s : LlmState) (q : List Event) :
    (on_press s q .enter).2 = [⟨.INPUTSENT, .noData⟩]
    ∧ popEvent (on_press s q .enter).2 = some ⟨.INPUTSENT, .noData⟩
    ∧ ∀ (q' : List Event) (e : Event), pushEvent (drainAll q') e = [e] := by
  refine ⟨?_, ?_, ?_⟩ <;> simp [on_press, pushEvent, drainAll, popEvent]

/-- C3, counterexample: after exactly 18 completed full clockwise rotations
from the initial armed dial state, no `BAR_FULL` (`ChargeComplete`) event
has been pushed, the dial is still active, and its counters are not reset —
the claim's 18-rotation completion scenario is false of the code, whose
threshold `loading_progress >= 6` is only reached on the 21st rotation. -/
theorem eighteen_rotations_incomplete :
    (rotSeq true 18 (rotaryInit true, [])).1.is_running = true
    ∧ (rotSeq true 18 (rotaryInit true, [])).1.rotation_count = 18
    ∧ (rotSeq true 18 (rotaryInit true, [])).1.loading_progress = 5
    ∧ (rotSeq true 18 (rotaryInit true, [])).2 =
        (List.range 6).map (fun i => ⟨.BAR_UPDATE, .intData i⟩) := by
  decide

/-- C3, amended: 3 full clockwise rotations push exactly one
`ChargeProgress(0)`; 21 (not 18) full rotations push seven `ChargeProgress`
events carrying units 0 through 6 followed by one `ChargeComplete`, after
which `rotationCount` is 0, `progressUnits` is −1 and the dial is
inactive. -/
theorem charge_trace_three_and_twentyone :
    (rotSeq true 3 (rotaryInit true, [])).2 = [⟨.BAR_UPDATE, .intData 0⟩]
    ∧ (rotSeq true 21 (rotaryInit true, [])).2 =
        (List.range 7).map (fun i => ⟨.BAR_UPDATE, .intData i⟩)
          ++ [⟨.BAR_FULL, .noData⟩]
    ∧ (rotSeq true 21 (rotaryInit true, [])).1.rotation_count = 0
    ∧ (rotSeq true 21 (rotaryInit true, [])).1.loading_progress = -1
    ∧ (rotSeq true 21 (rotaryInit true, [])).1.is_running = false := by
  decide

/-- C5: a tick delivered while the dial is inactive (`is_running = false`)
leaves the whole rotary state — in particular `loading_progress` and
`rotation_count` — unchanged and pushes no event, whatever the accumulated
encoder step count. -/
theorem inactive_tick_ignored (s : RotaryState) (q : List Event)
    (h : s.is_running = false) :
    rotation_detected s q = (s, q) := by
  simp [rotation_detected, h]

/-- Witness for C5 at the freshly initialized (inactive) dial. -/
theorem inactive_tick_ignored_witness :
    (rotaryInit false).is_running = false
    ∧ rotation_detected (rotaryInit false) [] = (rotaryInit false, []) :=
  ⟨rfl, inactive_tick_ignored (rotaryInit false) [] rfl⟩

/-- C6: a backspace key removes exactly the last character of the line
buffer, leaves `input_ready` untouched, and on an empty buffer leaves it
empty (no underflow). -/
theorem backspace_never_underflows (s : LlmState) (q : List Event) :
    (on_press s q .backspace).1.user_input = s.user_input.dropLast
    ∧ (on_press s q .backspace).1.input_ready = s.input_ready
    ∧ (s.user_input = [] → (on_press s q .backspace).1.user_input = []) := by
  unfold on_press
  dsimp only
  split <;> simp_all

/-- Witness for C6: backspace on the initial empty buffer keeps it empty. -/
theorem backspace_never_underflows_witness :
    (llmInit sysMsg).user_input = []
    ∧ (on_press (llmInit sysMsg) [] .backspace).1.user_input = [] :=
  ⟨rfl, (backspace_never_underflows (llmInit sysMsg) []).2.2 rfl⟩

/-- C7 (code bug): when the model collaborator raises, `get_llm_response`
returns the plain string `Error: ...`, and `run` then immediately evaluates
`self.response.message.content` on it, raising `AttributeError`; the
`except` handler pushes an `LLM_RESPONSE` event whose payload is an
error-formatted string and the loop continues, but — contrary to the claim
and to spec §4.3 step 6 — no assistant entry is appended to the
conversation, and `llm_output_ready` is never set for that cycle. -/
theorem error_cycle_behavior :
    (runCycle failingCollab preErrorState []).1.messages =
      [sysMsg, ⟨"user", "hi"⟩]
    ∧ (∀ m ∈ (runCycle failingCollab preErrorState []).1.messages,
        m.role ≠ "assistant")
    ∧ (runCycle failingCollab preErrorState []).2 =
        [⟨.LLM_RESPONSE, .strData ("Error: " ++ attributeErrorMsg)⟩]
    ∧ (runCycle failingCollab preErrorState []).1.is_running = true
    ∧ (runCycle failingCollab preErrorState []).1.llm_output_ready = false := by
  decide

/-- C8, counterexample: dispatching a `BAR_UPDATE` event makes a render
call, yet the display worker's private `update_queue` stays empty — render
requests are invoked directly, not delivered through the private queue. -/
theorem bar_update_bypasses_update_queue :
    (handle_event sampleController ⟨.BAR_UPDATE, .intData 0⟩).calls =
      [.update_loading_bar (-1)]
    ∧ (handle_event sampleController ⟨.BAR_UPDATE, .intData 0⟩).update_queue
        = [] := by
  decide

/-- C9, counterexample: a `ChargeProgress` event pushed with unit 0 is
dispatched in a state where the dial has meanwhile advanced to unit 1; the
unit forwarded to the display is 1, not the event's payload 0 — the
dispatch reads `self.rotary.loading_progress` and ignores the payload. -/
theorem bar_update_payload_ignored :
    stalePayloadEvent.data = .intData 0
    ∧ (handle_event advancedDial stalePayloadEvent).calls =
        [.update_loading_bar 1]
    ∧ RenderCall.update_loading_bar 0 ∉
        (handle_event advancedDial stalePayloadEvent).calls := by
  decide

/-- C4, counterexample: `__init__` sets `key_count = 2`, so the very first
accepted keystroke of the first capture session already pushes a
`KEYBOARDINPUT` event — the claim that none is pushed before 3 accepted
keystrokes is false of the code. -/
theorem first_keystroke_triggers_progress :
    (llmInit sysMsg).key_count = 2
    ∧ (on_press (llmInit sysMsg) [] (.char 'a')).2 =
        [⟨.KEYBOARDINPUT, .noData⟩] := by
  decide

/-- Helper: an accepted (non-enter) keystroke arriving with the counter at 2
resets the counter and pushes one `KEYBOARDINPUT` event. -/
theorem on_press_accepted_hit (s : LlmState) (q : List Event) (k : Key)
    (hk : k ≠ Key.enter) (h2 : s.key_count = 2) :
    (on_press s q k).1.key_count = 0
    ∧ (on_press s q k).2 = q ++ [⟨.KEYBOARDINPUT, .noData⟩] := by
  cases k <;> simp_all [on_press, pushEvent]

/-- Helper: an accepted (non-enter) keystroke arriving with the counter
below 2 only increments the counter and pushes nothing. -/
theorem on_press_accepted_miss (s : LlmState) (q : List Event) (k : Key)
    (hk : k ≠ Key.enter) (h2 : s.key_count < 2) :
    (on_press s q k).1.key_count = s.key_count + 1
    ∧ (on_press s q k).2 = q := by
  have h3 : ¬ 2 ≤ s.key_count := by omega
  cases k with
  | enter => exact absurd rfl hk
  | char c => simp [on_press, h3]
  | space => simp [on_press, h3]
  | backspace => simp [on_press, h3]

/-- C4, amended: during key capture, starting from any keystroke counter
value below 3, a sequence of accepted keystrokes (characters, spaces,
backspaces; no enter) pushes exactly `(key_count + n) / 3` `KEYBOARDINPUT`
events, i.e. one per completed group of 3 counting from the current counter.
Because `__init__` sets the counter to 2, the first session fires on its
1st, 4th, 7th … keystroke; after an enter resets the counter to 0, events
fire on every 3rd keystroke exactly as the claim states. -/
theorem keyboard_progress_every_third (s : LlmState) (q : List Event)
    (ks : List Key) (hc : s.key_count < 3)
    (hk : ∀ k ∈ ks, k ≠ Key.enter) :
    (processKeys s q ks).2 =
      q ++ List.replicate ((s.key_count + ks.length) / 3)
        ⟨.KEYBOARDINPUT, .noData⟩ := by
  induction ks generalizing s q with
  | nil =>
      simp [processKeys, Nat.div_eq_of_lt hc]
  | cons k ks ih =>
      have hk0 : k ≠ Key.enter := hk k (by simp)
      have hks : ∀ k' ∈ ks, k' ≠ Key.enter := fun k' h => hk k' (by simp [h])
      by_cases h2 : s.key_count = 2
      · obtain ⟨hcnt, hq⟩ := on_press_accepted_hit s q k hk0 h2
        rw [show (processKeys s q (k :: ks)).2
              = (processKeys (on_press s q k).1 (on_press s q k).2 ks).2
            from rfl, hq]
        rw [ih _ _ (by omega) hks]
        have e2 : (s.key_count + (k :: ks).length) / 3
            = ((on_press s q k).1.key_count + ks.length) / 3 + 1 := by
          rw [hcnt, h2]
          simp only [List.length_cons]
          omega
        rw [e2, List.replicate_succ]
        simp
      · have h2' : s.key_count < 2 := by omega
        obtain ⟨hcnt, hq⟩ := on_press_accepted_miss s q k hk0 h2'
        rw [show (processKeys s q (k :: ks)).2
              = (processKeys (on_press s q k).1 (on_press s q k).2 ks).2
            from rfl, hq]
        rw [ih _ _ (by omega) hks]
        have e2 : ((on_press s q k).1.key_count + ks.length) / 3
            = (s.key_count + (k :: ks).length) / 3 := by
          rw [hcnt]
          simp only [List.length_cons]
          omega
        rw [e2]

/-- Witness for C4's amended statement: from a counter reset to 0 (as after
an enter), the three keystrokes of typing two letters and a space push
exactly one `KEYBOARDINPUT` event. -/
theorem keyboard_progress_every_third_witness :
    ({ llmInit sysMsg with key_count := 0 } : LlmState).key_count < 3
    ∧ (∀ k ∈ [Key.char 'h', Key.char 'i', Key.space], k ≠ Key.enter)
    ∧ (processKeys { llmInit sysMsg with key_count := 0 } []
        [Key.char 'h', Key.char 'i', Key.space]).2 =
      [] ++ List.replicate
        ((({ llmInit sysMsg with key_count := 0 } : LlmState).key_count
          + ([Key.char 'h', Key.char 'i', Key.space] : List Key).length) / 3)
        ⟨.KEYBOARDINPUT, .noData⟩ :=
  ⟨by decide, by decide,
   keyboard_progress_every_third _ [] _ (by decide) (by decide)⟩

/-- Helper: one dispatched event never touches the display worker's private
`update_queue` and only appends to the render-call log. -/
theorem check_display_queue_calls (s : ControllerState) :
    (check_display_response s).update_queue = s.update_queue
    ∧ ∃ new, (check_display_response s).calls = s.calls ++ new := by
  unfold check_display_response
  split
  · split
    · exact ⟨rfl, _, rfl⟩
    · exact ⟨rfl, [], by simp⟩
  · exact ⟨rfl, [], by simp⟩

theorem handle_event_queue_calls (s : ControllerState) (e : Event) :
    (handle_event s e).update_queue = s.update_queue
    ∧ ∃ new, (handle_event s e).calls = s.calls ++ new := by
  obtain ⟨ty, d⟩ := e
  cases ty with
  | LLM_RESPONSE => exact check_display_queue_calls s
  | BAR_FULL =>
      exact check_display_queue_calls { s with loading_bar_full := true }
  | SHUTDOWN => exact ⟨rfl, [], by simp [handle_event]⟩
  | DISPLAY_UPDATE => exact ⟨rfl, [], by simp [handle_event]⟩
  | KEYBOARDINPUT => exact ⟨rfl, _, rfl⟩
  | INPUTSENT => exact ⟨rfl, _, rfl⟩
  | BAR_UPDATE => exact ⟨rfl, _, rfl⟩

/-- C8, amended: the coordinator's single dispatch loop invokes the display
operations directly and synchronously, one event at a time in arrival
order; its render calls only accumulate (none dropped, none reordered), and
the display worker's private `update_queue` — which only `queue_update`
feeds, and which the dispatch path never calls — is left untouched by every
dispatch. -/
theorem dispatch_calls_render_directly (s : ControllerState)
    (es : List Event) :
    (processEvents s es).update_queue = s.update_queue
    ∧ ∃ new, (processEvents s es).calls = s.calls ++ new := by
  induction es generalizing s with
  | nil => exact ⟨rfl, [], by simp [processEvents]⟩
  | cons e es ih =>
      obtain ⟨hq1, new1, hc1⟩ := handle_event_queue_calls s e
      obtain ⟨hq2, new2, hc2⟩ := ih (handle_event s e)
      refine ⟨by rw [show processEvents s (e :: es)
                       = processEvents (handle_event s e) es from rfl,
                     hq2, hq1],
              new1 ++ new2, ?_⟩
      rw [show processEvents s (e :: es)
            = processEvents (handle_event s e) es from rfl,
          hc2, hc1, List.append_assoc]

/-- C9, amended: the unit the coordinator forwards to the display for a
`ChargeProgress` (`BAR_UPDATE`) event is the dial's `loading_progress` at
dispatch time — whatever payload the event carries — so the rendered unit
equals the pushed payload only when the dial has not changed between push
and dispatch. -/
theorem bar_update_forwards_dial_progress (s : ControllerState) (e : Event)
    (h : e.type = EventType.BAR_UPDATE) :
    (handle_event s e).calls =
      s.calls ++ [.update_loading_bar s.rotary.loading_progress] := by
  obtain ⟨ty, d⟩ := e
  cases ty <;> simp_all [handle_event]

/-- Witness for C9's amended statement at a concrete dispatch. -/
theorem bar_update_forwards_dial_progress_witness :
    (stalePayloadEvent.type = EventType.BAR_UPDATE)
    ∧ (handle_event advancedDial stalePayloadEvent).calls =
        advancedDial.calls
          ++ [.update_loading_bar advancedDial.rotary.loading_progress] :=
  ⟨rfl, bar_update_forwards_dial_progress advancedDial stalePayloadEvent rfl⟩

/-- C1 (code bug): the claimed exactly-once/flags-false-after invariant
holds only for the schedules in which the dial's `BAR_FULL` dispatch misses
the worker's completion window, and fails for the real schedules inside it.
Evaluating the gate over all five schedules of `cycleSchedules`, from a
clean state whose previous reply was `old reply` and whose fresh reply is
`fresh reply`: when `BAR_FULL` is dispatched before line 528 or after
line 472 (schedules 1, 4, 5) the display fires once with the fresh reply
and both flags end false; when it is dispatched between the premature
`llm_output_ready = True` at line 528 and the response binding at line 465
(schedule 2) the display fires with the *previous* cycle's reply and
`llm_output_ready` is still true after the cycle; when it is dispatched
between lines 465 and 472 (schedule 3) the content is right but
`llm_output_ready` is again left true.  Extending the raced schedule with
the next cycle's `ChargeComplete` dispatch fires the display a second time
for the single completed response pair. -/
theorem gate_race_behavior :
    (cycleSchedules "fresh reply").map
      (fun ops => ((runGate cleanGateStart ops).calls,
                   (runGate cleanGateStart ops).llm.llm_output_ready,
                   (runGate cleanGateStart ops).loading_bar_full))
    = [ ([.display_response "fresh reply"], false, false),
        ([.display_response "old reply"], true, false),
        ([.display_response "fresh reply"], true, false),
        ([.display_response "fresh reply"], false, false),
        ([.display_response "fresh reply"], false, false) ]
    ∧ racedSchedule "fresh reply" ∈ cycleSchedules "fresh reply"
    ∧ (runGate cleanGateStart
        (racedSchedule "fresh reply" ++ [.dispatchBarFull])).calls
      = [.display_response "old reply", .display_response "fresh reply"] := by
  decide

/-- Helper: one completed counterclockwise rotation whose decremented count
is not a multiple of 3 only decrements the count. -/
theorem fullRotation_ccw_miss (s : RotaryState) (q : List Event)
    (h1 : s.is_running = true) (h2 : (s.rotation_count - 1) % 3 ≠ 0) :
    fullRotation false s q =
      ({ s with rotation_count := s.rotation_count - 1, steps := 0,
                rotations_met := false }, q) := by
  simp [fullRotation, rotation_detected, h1, h2,
        (by decide : (CPR : Int) ≤ |(-CPR)|),
        (by decide : (CPR : Int) ≤ |CPR|),
        (by decide : ¬ (0 : Int) < -CPR)]

/-- Helper: one completed counterclockwise rotation whose decremented count
is a multiple of 3, while still below the bar threshold, advances the
charge unit and pushes `BAR_UPDATE`. -/
theorem fullRotation_ccw_hit (s : RotaryState) (q : List Event)
    (h1 : s.is_running = true) (h2 : (s.rotation_count - 1) % 3 = 0)
    (h3 : s.loading_progress + 1 < 6) :
    fullRotation false s q =
      ({ s with rotation_count := s.rotation_count - 1, steps := 0,
                rotations_met := true,
                loading_progress := s.loading_progress + 1 },
       q ++ [⟨.BAR_UPDATE, .intData (s.loading_progress + 1)⟩]) := by
  have h3' : ¬ (6 ≤ s.loading_progress + 1) := by omega
  simp [fullRotation, rotation_detected, pushEvent, h1, h2, h3',
        (by decide : (CPR : Int) ≤ |(-CPR)|),
        (by decide : (CPR : Int) ≤ |CPR|),
        (by decide : ¬ (0 : Int) < -CPR)]

/-- Helper: one completed clockwise rotation whose incremented count is not
a multiple of 3 only increments the count. -/
theorem fullRotation_cw_miss (s : RotaryState) (q : List Event)
    (h1 : s.is_running = true) (h2 : (s.rotation_count + 1) % 3 ≠ 0) :
    fullRotation true s q =
      ({ s with rotation_count := s.rotation_count + 1, steps := 0,
                rotations_met := false }, q) := by
  simp [fullRotation, rotation_detected, h1, h2,
        (by decide : (CPR : Int) ≤ |CPR|),
        (by decide : (0 : Int) < CPR)]

/-- Helper: one completed clockwise rotation whose incremented count is a
multiple of 3, while still below the bar threshold, advances the charge
unit and pushes `BAR_UPDATE`. -/
theorem fullRotation_cw_hit (s : RotaryState) (q : List Event)
    (h1 : s.is_running = true) (h2 : (s.rotation_count + 1) % 3 = 0)
    (h3 : s.loading_progress + 1 < 6) :
    fullRotation true s q =
      ({ s with rotation_count := s.rotation_count + 1, steps := 0,
                rotations_met := true,
                loading_progress := s.loading_progress + 1 },
       q ++ [⟨.BAR_UPDATE, .intData (s.loading_progress + 1)⟩]) := by
  have h3' : ¬ (6 ≤ s.loading_progress + 1) := by omega
  simp [fullRotation, rotation_detected, pushEvent, h1, h2, h3',
        (by decide : (CPR : Int) ≤ |CPR|),
        (by decide : (0 : Int) < CPR)]

/-- Helper: three counterclockwise rotations from a multiple-of-3 count
below the threshold: count down by 3, one charge unit gained, one
`BAR_UPDATE` pushed. -/
theorem rot3_ccw (s : RotaryState) (q : List Event)
    (h1 : s.is_running = true) (h2 : s.rotation_count % 3 = 0)
    (h3 : s.loading_progress + 1 < 6) :
    rotSeq false 3 (s, q)
      = ({ s with rotation_count := s.rotation_count - 3, steps := 0,
                  rotations_met := true,
                  loading_progress := s.loading_progress + 1 },
         q ++ [⟨.BAR_UPDATE, .intData (s.loading_progress + 1)⟩]) := by
  have e1 := fullRotation_ccw_miss s q h1 (by omega)
  rw [show rotSeq false 3 (s, q)
        = rotSeq false 2 (fullRotation false s q) from rfl, e1]
  have e2 := fullRotation_ccw_miss
    { s with rotation_count := s.rotation_count - 1, steps := 0,
             rotations_met := false } q h1 (by dsimp; omega)
  rw [show rotSeq false 2
        ({ s with rotation_count := s.rotation_count - 1, steps := 0,
                  rotations_met := false }, q)
        = rotSeq false 1 (fullRotation false
            { s with rotation_count := s.rotation_count - 1, steps := 0,
                     rotations_met := false } q) from rfl, e2]
  have e3 := fullRotation_ccw_hit
    { s with rotation_count := s.rotation_count - 1 - 1, steps := 0,
             rotations_met := false } q h1 (by dsimp; omega) (by dsimp; omega)
  rw [show rotSeq false 1
        ({ s with rotation_count := s.rotation_count - 1 - 1, steps := 0,
                  rotations_met := false }, q)
        = rotSeq false 0 (fullRotation false
            { s with rotation_count := s.rotation_count - 1 - 1, steps := 0,
                     rotations_met := false } q) from rfl, e3]
  simp only [rotSeq]
  simp only [Prod.mk.injEq, RotaryState.mk.injEq]
  simp
  omega

/-- Helper: three clockwise rotations from a multiple-of-3 count below the
threshold: count up by 3, one charge unit gained, one `BAR_UPDATE`
pushed. -/
theorem rot3_cw (s : RotaryState) (q : List Event)
    (h1 : s.is_running = true) (h2 : s.rotation_count % 3 = 0)
    (h3 : s.loading_progress + 1 < 6) :
    rotSeq true 3 (s, q)
      = ({ s with rotation_count := s.rotation_count + 3, steps := 0,
                  rotations_met := true,
                  loading_progress := s.loading_progress + 1 },
         q ++ [⟨.BAR_UPDATE, .intData (s.loading_progress + 1)⟩]) := by
  have e1 := fullRotation_cw_miss s q h1 (by omega)
  rw [show rotSeq true 3 (s, q)
        = rotSeq true 2 (fullRotation true s q) from rfl, e1]
  have e2 := fullRotation_cw_miss
    { s with rotation_count := s.rotation_count + 1, steps := 0,
             rotations_met := false } q h1 (by dsimp; omega)
  rw [show rotSeq true 2
        ({ s with rotation_count := s.rotation_count + 1, steps := 0,
                  rotations_met := false }, q)
        = rotSeq true 1 (fullRotation true
            { s with rotation_count := s.rotation_count + 1, steps := 0,
                     rotations_met := false } q) from rfl, e2]
  have e3 := fullRotation_cw_hit
    { s with rotation_count := s.rotation_count + 1 + 1, steps := 0,
             rotations_met := false } q h1 (by dsimp; omega) (by dsimp; omega)
  rw [show rotSeq true 1
        ({ s with rotation_count := s.rotation_count + 1 + 1, steps := 0,
                  rotations_met := false }, q)
        = rotSeq true 0 (fullRotation true
            { s with rotation_count := s.rotation_count + 1 + 1, steps := 0,
                     rotations_met := false } q) from rfl, e3]
  simp only [rotSeq]
  simp only [Prod.mk.injEq, RotaryState.mk.injEq]
  simp
  omega

/-- C10: with the dial active and the rotation count at a multiple of 3
(below the charge threshold), three consecutive counterclockwise full
rotations decrement `rotation_count` to a multiple of 3, advance
`loading_progress` by one, and push exactly one `ChargeProgress` event —
the same queue contents and the same `loading_progress` as three clockwise
rotations produce — because the charge-unit test is `rotation_count % 3 == 0`
and Python's modulo of a negative count by 3 is still in `{0, 1, 2}`. -/
theorem ccw_rotations_charge_like_cw (s : RotaryState) (q : List Event)
    (h1 : s.is_running = true) (h2 : s.rotation_count % 3 = 0)
    (h3 : s.loading_progress + 1 < 6) :
    (rotSeq false 3 (s, q)).1.rotation_count = s.rotation_count - 3
    ∧ (rotSeq false 3 (s, q)).1.rotation_count % 3 = 0
    ∧ (rotSeq false 3 (s, q)).1.loading_progress = s.loading_progress + 1
    ∧ (rotSeq false 3 (s, q)).2
        = q ++ [⟨.BAR_UPDATE, .intData (s.loading_progress + 1)⟩]
    ∧ (rotSeq true 3 (s, q)).1.loading_progress
        = (rotSeq false 3 (s, q)).1.loading_progress
    ∧ (rotSeq true 3 (s, q)).2 = (rotSeq false 3 (s, q)).2 := by
  rw [rot3_ccw s q h1 h2 h3, rot3_cw s q h1 h2 h3]
  exact ⟨rfl, by dsimp; omega, rfl, rfl, rfl, rfl⟩

/-- Witness for C10 at the armed initial dial state. -/
theorem ccw_rotations_charge_like_cw_witness :
    (rotaryInit true).is_running = true
    ∧ (rotaryInit true).rotation_count % 3 = 0
    ∧ (rotaryInit true).loading_progress + 1 < 6
    ∧ (rotSeq false 3 (rotaryInit true, [])).1.rotation_count
        = (rotaryInit true).rotation_count - 3
    ∧ (rotSeq false 3 (rotaryInit true, [])).2
        = [] ++ [⟨.BAR_UPDATE,
                  .intData ((rotaryInit true).loading_progress + 1)⟩] :=
  ⟨rfl, by decide, by decide,
   (ccw_rotations_charge_like_cw (rotaryInit true) [] rfl (by decide)
      (by decide)).1,
   (ccw_rotations_charge_like_cw (rotaryInit true) [] rfl (by decide)
      (by decide)).2.2.2.1⟩

end WilliamMorris
